import Mathlib

/-!
Verification of `scripts/generate_image.py` (the single source file of this
repository): a shallow embedding of its data model and control flow, with
theorems settling the specification claims.

Modelling conventions:
* Python machine ints are `Int`; byte values are `Nat` with explicit `≤ 255`
  hypotheses where the arithmetic needs them.
* The external collaborators (Pillow's `Image.open`, the bytes decoder and
  the generation client) are oracle parameters of the embedded `main`;
  filesystem and network effects are recorded in an explicit trace.
* Python truthiness of optional strings / lists is modelled explicitly
  (`None` and `""` / `[]` are falsy).
-/

namespace GenImage

/-! Section: Python truthiness -/

/-- Truthiness of an optional Python string: `None` and `""` are falsy. -/
def strTruthy : Option String → Bool
  | none => false
  | some s => !s.isEmpty

/-- Truthiness of an optional Python list: `None` and `[]` are falsy. -/
def listTruthy : Option (List String) → Bool
  | none => false
  | some l => !l.isEmpty

/-! Section: base64 (`base64.b64encode` / `base64.b64decode`)

`generate_image.py` calls `base64.b64decode` on string payloads (line 207).
We embed standard base64 with `=` padding over byte lists. -/

/-- The base64 alphabet in index order. -/
def b64Alphabet : List Char :=
  "ABCDEFGHIJKLMNOPQRSTUVWXYZabcdefghijklmnopqrstuvwxyz0123456789+/".toList

/-- Character for a sextet value (0–63). -/
def sextetChar (n : Nat) : Char := b64Alphabet.getD n 'A'

/-- Sextet value of an alphabet character. -/
def charSextet (c : Char) : Nat := b64Alphabet.indexOf c

/-- Base64-encode a byte list, three bytes to four characters, `=`-padded. -/
def b64encodeL : List Nat → List Char
  | [] => []
  | [a] => [sextetChar (a / 4), sextetChar (a % 4 * 16), '=', '=']
  | [a, b] => [sextetChar (a / 4), sextetChar (a % 4 * 16 + b / 16),
               sextetChar (b % 16 * 4), '=']
  | a :: b :: c :: rest =>
      sextetChar (a / 4) :: sextetChar (a % 4 * 16 + b / 16) ::
      sextetChar (b % 16 * 4 + c / 64) :: sextetChar (c % 64) :: b64encodeL rest

/-- Base64-decode a character list, honouring `=` padding. -/
def b64decodeL : List Char → List Nat
  | c1 :: c2 :: c3 :: c4 :: rest =>
      let s1 := charSextet c1
      let s2 := charSextet c2
      if c3 = '=' then [s1 * 4 + s2 / 16]
      else
        let s3 := charSextet c3
        if c4 = '=' then [s1 * 4 + s2 / 16, s2 % 16 * 16 + s3 / 4]
        else [s1 * 4 + s2 / 16, s2 % 16 * 16 + s3 / 4,
              s3 % 4 * 64 + charSextet c4] ++ b64decodeL rest
  | _ => []

/-- `base64.b64encode(b).decode("utf-8")` as a Lean string. -/
def b64encode (b : List Nat) : String := String.mk (b64encodeL b)

/-- `base64.b64decode(s)` as a byte list. -/
def b64decode (s : String) : List Nat := b64decodeL s.data

/-! Section: path arithmetic (`pathlib.Path` on normalized paths)

The script uses `Path(filename)` and its `parent`, `stem`, `suffix`
attributes plus `/` joining (lines 134, 213–215). We model these for paths
without duplicate or trailing separators, which is the shape the script
receives. -/

/-- Split a character list on `'/'` (the behaviour of `splitOn "/"` on the
underlying characters, in structural recursion). -/
def splitSlash : List Char → List (List Char)
  | [] => [[]]
  | c :: rest =>
      let r := splitSlash rest
      if c = '/' then [] :: r
      else
        match r with
        | [] => [[c]]
        | h :: t => (c :: h) :: t

/-- Join character-list components with `'/'`. -/
def joinSlash : List (List Char) → List Char
  | [] => []
  | [x] => x
  | x :: xs => x ++ '/' :: joinSlash xs

/-- Final path component (`Path(p).name`). -/
def pathName (p : String) : String := String.mk ((splitSlash p.data).getLastD [])

/-- `Path(p).parent` rendered as a string. -/
def pathParent (p : String) : String :=
  let comps := splitSlash p.data
  if comps.length ≤ 1 then "."
  else
    let joined := joinSlash comps.dropLast
    if joined = [] then "/" else String.mk joined

/-- Index of the last `'.'` in a character list, if any. -/
def rfindDot : List Char → Option Nat
  | [] => none
  | c :: cs =>
      match rfindDot cs with
      | some i => some (i + 1)
      | none => if c = '.' then some 0 else none

/-- `Path(p).suffix`: the final extension including the dot; empty when the
last dot is leading or trailing in the name (CPython's rule). -/
def pathSuffix (p : String) : String :=
  let n := (pathName p).data
  match rfindDot n with
  | some i => if 0 < i ∧ i < n.length - 1 then String.mk (n.drop i) else ""
  | none => ""

/-- `Path(p).stem`: the final component without its suffix. -/
def pathStem (p : String) : String :=
  let n := (pathName p).data
  String.mk (n.take (n.length - (pathSuffix p).length))

/-- `str(Path(parent) / child)` for a parent produced by `pathParent`. -/
def pathJoin (parent child : String) : String :=
  if parent = "." then child
  else if parent = "/" then "/" ++ child
  else if parent = "" then child
  else parent ++ "/" ++ child

/-! Section: CLI surface (argparse, lines 64–114)

`--aspect-ratio` is parsed with a fixed choice set but never read again by
the script, so it does not appear in the model. `--num-images` is parsed
with `type=int` and no range restriction. -/

/-- The `--reference-type` choices (line 88). -/
inductive RefType
  | STYLE
  | CHARACTER
  | SUBJECT
deriving DecidableEq

/-- How a `RefType` prints inside the "Added reference image" message. -/
def refTypeStr : RefType → String
  | .STYLE => "STYLE"
  | .CHARACTER => "CHARACTER"
  | .SUBJECT => "SUBJECT"

/-- Parsed arguments, with argparse defaults. `reference_image` uses
`action="append"`, so it is `None` or a list. -/
structure Args where
  prompt : String
  filename : String
  input_image : Option String := none
  reference_image : Option (List String) := none
  reference_type : RefType := .STYLE
  resolution : String := "2K"
  num_images : Int := 1
  api_key : Option String := none
deriving DecidableEq

/-- `get_api_key` (lines 37–41): argument first, then environment. -/
def get_api_key (provided_key : Option String) (env : Option String) :
    Option String :=
  if strTruthy provided_key then provided_key else env

/-! Section: images (Pillow, treated per the script's uses)

A decoded image is a color mode (Pillow modes are strings) plus a pixel
list; each pixel is a list of channel bytes whose length matches the mode. -/

/-- A decoded Pillow image. -/
structure PILImage where
  mode : String
  width : Nat := 0
  height : Nat := 0
  pixels : List (List Nat) := []
deriving DecidableEq

/-- Pillow's `MULDIV255` rounding of `a * b / 255`. -/
def muldiv255 (a b : Nat) : Nat :=
  ((a * b + 128) / 256 + (a * b + 128)) / 256

/-- One channel of `dest.paste(src, mask=m)`: blend of source over
destination weighted by the mask byte. -/
def blendChannel (dst src m : Nat) : Nat :=
  muldiv255 dst (255 - m) + muldiv255 src m

/-- Flatten one RGBA pixel onto white using its alpha as the paste mask
(lines 221–222: paste onto a white RGB canvas). -/
def flattenPixel : List Nat → List Nat
  | [r, g, b, a] => [blendChannel 255 r a, blendChannel 255 g a,
                     blendChannel 255 b a]
  | p => p

/-- Pixel transform of `image.convert('RGB')` for the modes the script can
meet; grayscale replicates its single channel. -/
def convertPixel (mode : String) : List Nat → List Nat
  | [l] => if mode = "L" then [l, l, l] else [l]
  | p => p

/-- `image.convert('RGB')` (line 227). -/
def convertRGB (img : PILImage) : PILImage :=
  { mode := "RGB", width := img.width, height := img.height,
    pixels := img.pixels.map (convertPixel img.mode) }

/-- The image actually written by the save block (lines 220–227): RGBA is
flattened onto white via its alpha mask, RGB is saved as-is, anything else
is converted to RGB. -/
def normalizeImage (img : PILImage) : PILImage :=
  if img.mode = "RGBA" then
    { mode := "RGB", width := img.width, height := img.height,
      pixels := img.pixels.map flattenPixel }
  else if img.mode = "RGB" then img
  else convertRGB img

/-- The RGBA flattening branch as a whole image (lines 220–223). -/
def flattenImage (img : PILImage) : PILImage :=
  { mode := "RGB", width := img.width, height := img.height,
    pixels := img.pixels.map flattenPixel }

/-! Section: response model and effect trace -/

/-- An inline-data payload: the SDK may hand back base64 text or raw bytes
(lines 205–207). -/
inductive PayloadData
  | str (s : String)
  | bytes (b : List Nat)
deriving DecidableEq

/-- `part.inline_data`. -/
structure InlineData where
  data : PayloadData
deriving DecidableEq

/-- One part of the generation response. -/
structure Part where
  text : Option String := none
  inline_data : Option InlineData := none
deriving DecidableEq

/-- Normalization of an inline payload to raw bytes (lines 205–207):
strings are base64-decoded, bytes pass through. -/
def normalizePayload : PayloadData → List Nat
  | .str s => b64decode s
  | .bytes b => b

/-- A content part submitted to the generation call. -/
inductive PartOut
  | image (img : PILImage)
  | text (s : String)
deriving DecidableEq

/-- Observable effects of one run, in program order. -/
inductive Effect
  | print (s : String)
  | eprint (s : String)
  | mkdir (path : String) (parents : Bool) (exist_ok : Bool)
  | generate (model : String) (parts : List PartOut) (resolution : String)
  | save (path : String) (img : PILImage)
deriving DecidableEq

/-! Section: main (lines 63–240)

External collaborators are oracles: `openImage` is `PIL.Image.open` on a
path, `decodeImage` decodes response bytes, `resolve` is
`Path.resolve()`, and `callResult` is the outcome of
`client.models.generate_content`. The result is the exit status paired
with the effect trace. -/

/-- The fixed phrase prepended for each reference type (lines 165–170). -/
def refPhrase : RefType → String
  | .STYLE => "Using the style from the reference image(s), create: "
  | .CHARACTER =>
      "Maintaining the character/person consistency from the reference image(s), create: "
  | .SUBJECT => "Using the subject/composition from the reference image(s), create: "

/-- Prompt construction (lines 161–172): the fixed phrase is prepended
exactly when reference images are present and no input image is. -/
def buildPrompt (args : Args) : String :=
  if listTruthy args.reference_image ∧ ¬ strTruthy args.input_image then
    refPhrase args.reference_type ++ args.prompt
  else
    args.prompt

/-- The reference-image loading loop (lines 141–149). On failure the
returned effects end with the fatal message; on success they are the
per-image progress prints, paired with the loaded images in order. -/
def loadRefImages (openImage : String → Except String PILImage)
    (rtype : String) : List String → Except (List Effect) (List PILImage × List Effect)
  | [] => Except.ok ([], [])
  | p :: ps =>
      match openImage p with
      | Except.error e =>
          Except.error [Effect.eprint ("Error loading reference image " ++ p ++ ": " ++ e)]
      | Except.ok img =>
          let pr := Effect.print ("Added reference image (" ++ rtype ++ "): " ++ p)
          match loadRefImages openImage rtype ps with
          | Except.error effs => Except.error (pr :: effs)
          | Except.ok (imgs, effs) => Except.ok (img :: imgs, pr :: effs)

/-- Output path for the `count`-th saved image, 0-based (lines 211–217):
a `-<count+1>` suffix is inserted only when `--num-images` exceeds 1 and
this is not the first image. -/
def savePathFor (args : Args) (output_path : String) (count : Nat) : String :=
  if args.num_images > 1 ∧ count > 0 then
    pathJoin (pathParent output_path)
      (pathStem output_path ++ "-" ++ toString (count + 1) ++ pathSuffix output_path)
  else output_path

/-- The response-processing loop (lines 198–230): text parts are printed,
inline-image parts are decoded, normalized and saved; returns the effects
and the final image count given the starting count. -/
def processParts (args : Args) (decodeImage : List Nat → PILImage)
    (resolve : String → String) (output_path : String) :
    List Part → Nat → List Effect × Nat
  | [], count => ([], count)
  | part :: rest, count =>
      match part.text with
      | some t =>
          let (effs, c) := processParts args decodeImage resolve output_path rest count
          (Effect.print ("Model response: " ++ t) :: effs, c)
      | none =>
          match part.inline_data with
          | none => processParts args decodeImage resolve output_path rest count
          | some d =>
              let image := decodeImage (normalizePayload d.data)
              let save_path := savePathFor args output_path count
              let (effs, c) :=
                processParts args decodeImage resolve output_path rest (count + 1)
              (Effect.save save_path (normalizeImage image) ::
               Effect.print ("Image saved: " ++ resolve save_path) :: effs, c)

/-- The whole of `main` (lines 63–240) as exit status plus effect trace. -/
def pyMain (args : Args) (env : Option String)
    (openImage : String → Except String PILImage)
    (decodeImage : List Nat → PILImage)
    (resolve : String → String)
    (callResult : Except String (List Part)) : Nat × List Effect :=
  let api_key := get_api_key args.api_key env
  if ¬ strTruthy api_key then
    (1, [Effect.eprint "Error: No API key provided.",
         Effect.eprint "Please either:",
         Effect.eprint "  1. Provide --api-key argument",
         Effect.eprint "  2. Set GEMINI_API_KEY environment variable"])
  else
    let output_path := args.filename
    let e0 := [Effect.mkdir (pathParent output_path) true true]
    match (if listTruthy args.reference_image then
             loadRefImages openImage (refTypeStr args.reference_type)
               (args.reference_image.getD [])
           else Except.ok ([], [])) with
    | Except.error effs => (1, e0 ++ effs)
    | Except.ok (refImgs, refEffs) =>
        match (if strTruthy args.input_image then
                 match openImage (args.input_image.getD "") with
                 | Except.error e =>
                     Except.error [Effect.eprint ("Error loading input image: " ++ e)]
                 | Except.ok img =>
                     Except.ok ([img],
                       [Effect.print ("Added input image for editing: " ++
                          args.input_image.getD "")])
               else Except.ok ([], [])) with
        | Except.error effs => (1, e0 ++ refEffs ++ effs)
        | Except.ok (inpImgs, inpEffs) =>
            let parts := (refImgs ++ inpImgs).map PartOut.image ++
              [PartOut.text (buildPrompt args)]
            let statusMsg := Effect.print
              (if strTruthy args.input_image then
                "Editing image with resolution " ++ args.resolution ++ "..."
              else if listTruthy args.reference_image then
                "Generating with " ++
                  toString (args.reference_image.getD []).length ++
                  " reference image(s), resolution " ++ args.resolution ++ "..."
              else
                "Generating image with resolution " ++ args.resolution ++ "...")
            let genEff := Effect.generate "gemini-3-pro-image-preview" parts
              args.resolution
            match callResult with
            | Except.error e =>
                (1, e0 ++ refEffs ++ inpEffs ++ [statusMsg, genEff,
                     Effect.eprint ("Error generating image: " ++ e)])
            | Except.ok respParts =>
                let pr := processParts args decodeImage resolve output_path respParts 0
                if pr.2 = 0 then
                  (1, e0 ++ refEffs ++ inpEffs ++ [statusMsg, genEff] ++ pr.1 ++
                      [Effect.eprint "Error: No image was generated in the response."])
                else
                  (0, e0 ++ refEffs ++ inpEffs ++ [statusMsg, genEff] ++ pr.1 ++
                      [Effect.print ("\nTotal images saved: " ++ toString pr.2)])

/-! Section: trace observations -/

/-- Paths of the files written by a trace, in write order. -/
def savedPaths (t : List Effect) : List String :=
  t.filterMap fun e =>
    match e with
    | .save p _ => some p
    | _ => none

/-- Images written by a trace, in write order. -/
def savedImages (t : List Effect) : List PILImage :=
  t.filterMap fun e =>
    match e with
    | .save _ img => some img
    | _ => none

/-- Whether a trace contains a generation call. -/
def hasGenerate (t : List Effect) : Bool :=
  t.any fun e =>
    match e with
    | .generate _ _ _ => true
    | _ => false

/-- Content-part lists submitted to generation calls in a trace. -/
def generatedPartsList (t : List Effect) : List (List PartOut) :=
  t.filterMap fun e =>
    match e with
    | .generate _ ps _ => some ps
    | _ => none

/-- The reference-image paths the loading loop iterates (lines 141–142):
empty unless `--reference-image` was given a truthy list. -/
def refPathList (args : Args) : List String :=
  if listTruthy args.reference_image then args.reference_image.getD [] else []

/-- The input-image paths loaded (lines 152–155): at most one, and only
when `--input-image` is truthy. -/
def inputPathList (args : Args) : List String :=
  if strTruthy args.input_image then [args.input_image.getD ""] else []

/-- Effects that neither write image files nor call the network: progress
prints, error prints and directory creation. -/
def benign : Effect → Bool
  | .print _ => true
  | .eprint _ => true
  | .mkdir _ _ _ => true
  | _ => false

/-- Number of response parts that take the inline-image branch: no text
and some inline data (the `elif` at line 202). -/
def imagePartCount (parts : List Part) : Nat :=
  (parts.filter fun p => p.text.isNone && p.inline_data.isSome).length

/-- The status line printed before the call (lines 175–180). -/
def statusStr (args : Args) : String :=
  if strTruthy args.input_image then
    "Editing image with resolution " ++ args.resolution ++ "..."
  else if listTruthy args.reference_image then
    "Generating with " ++ toString (args.reference_image.getD []).length ++
      " reference image(s), resolution " ++ args.resolution ++ "..."
  else
    "Generating image with resolution " ++ args.resolution ++ "..."

/-- The content parts a fully successful load phase submits: reference
images in order, then the optional input image, then the prompt text. -/
def goodParts (args : Args) (g : String → PILImage) : List PartOut :=
  ((refPathList args).map fun p => PartOut.image (g p)) ++
  ((inputPathList args).map fun p => PartOut.image (g p)) ++
  [PartOut.text (buildPrompt args)]

/-- The effect trace of a run that passes credential resolution and loads
every local image, up to and including the generation call. -/
def goodTrace0 (args : Args) (g : String → PILImage) : List Effect :=
  [Effect.mkdir (pathParent args.filename) true true] ++
  ((refPathList args).map fun p =>
    Effect.print ("Added reference image (" ++ refTypeStr args.reference_type ++
      "): " ++ p)) ++
  ((inputPathList args).map fun p =>
    Effect.print ("Added input image for editing: " ++ p)) ++
  [Effect.print (statusStr args),
   Effect.generate "gemini-3-pro-image-preview" (goodParts args g) args.resolution]

/-- The prints the text parts of a response produce (line 201). -/
def textPrints (parts : List Part) : List Effect :=
  parts.filterMap fun p => p.text.map fun t => Effect.print ("Model response: " ++ t)

/-! Section: concrete fixtures used to instantiate the claims -/

/-- A response part carrying raw inline bytes. -/
def imgPartFix : Part := { inline_data := some ⟨PayloadData.bytes [1]⟩ }

/-- A minimal RGB decoded image. -/
def rgbFix : PILImage := { mode := "RGB" }

/-- An image-open oracle that decodes every path to the minimal image. -/
def okOpenFix : String → Except String PILImage := fun _ => Except.ok rgbFix

/-- An image-open oracle failing on one path with Pillow-style text. -/
def failOpenFix : String → Except String PILImage := fun p =>
  if p = "bad.png" then Except.error "cannot identify image file 'bad.png'"
  else Except.ok rgbFix

/-- A response part carrying only text. -/
def textPartFix : Part := { text := some "hi" }

/-- A minimal RGBA decoded image with one partly and one fully
transparent pixel. -/
def rgbaFix : PILImage :=
  { mode := "RGBA", width := 2, height := 1, pixels := [[10, 20, 30, 0], [10, 20, 30, 255]] }

/-- Arguments of a minimal keyed run writing `out.png`, with a chosen
`--num-images` value. -/
def outArgs (n : Int) : Args :=
  { prompt := "p", filename := "out.png", api_key := some "k", num_images := n }

/-- Arguments of a keyed run with one (bad) reference image. -/
def c6RefArgsFix : Args :=
  { prompt := "p", filename := "out.png", api_key := some "k",
    reference_image := some ["bad.png"] }

/-- Arguments of a keyed run with one (bad) input image. -/
def c6InpArgsFix : Args :=
  { prompt := "p", filename := "out.png", api_key := some "k",
    input_image := some "bad.png" }

/-- Arguments of a keyed run with two reference images and an input image. -/
def c5ArgsFix : Args :=
  { prompt := "cat", filename := "o.png", input_image := some "i.png",
    reference_image := some ["r1.png", "r2.png"], api_key := some "k" }

/-- A keyed run with three inline-image response parts, parameterized by
`--num-images`. -/
def threeImageRun (n : Int) : Nat × List Effect :=
  pyMain (outArgs n) none okOpenFix (fun _ => rgbFix) id
    (Except.ok [imgPartFix, imgPartFix, imgPartFix])

/-! Section: base64 round-trip lemmas -/

/-- Decoding inverts encoding on each sextet value. -/
lemma charSextet_sextetChar : ∀ n < 64, charSextet (sextetChar n) = n := by decide

/-- No alphabet character is the padding character. -/
lemma sextetChar_ne_pad : ∀ n < 64, sextetChar n ≠ '=' := by decide

/-- Unfolding lemma for the decoder on a four-character block. -/
lemma b64decodeL_cons4 (c1 c2 c3 c4 : Char) (rest : List Char) :
    b64decodeL (c1 :: c2 :: c3 :: c4 :: rest) =
      if c3 = '=' then [charSextet c1 * 4 + charSextet c2 / 16]
      else if c4 = '=' then
        [charSextet c1 * 4 + charSextet c2 / 16,
         charSextet c2 % 16 * 16 + charSextet c3 / 4]
      else
        [charSextet c1 * 4 + charSextet c2 / 16,
         charSextet c2 % 16 * 16 + charSextet c3 / 4,
         charSextet c3 % 4 * 64 + charSextet c4] ++ b64decodeL rest := rfl

/-- Unfolding lemma for the encoder on a single trailing byte. -/
lemma b64encodeL_one (a : Nat) :
    b64encodeL [a] = [sextetChar (a / 4), sextetChar (a % 4 * 16), '=', '='] := rfl

/-- Unfolding lemma for the encoder on two trailing bytes. -/
lemma b64encodeL_two (a b : Nat) :
    b64encodeL [a, b] = [sextetChar (a / 4), sextetChar (a % 4 * 16 + b / 16),
      sextetChar (b % 16 * 4), '='] := rfl

/-- Base64 decoding inverts encoding on byte lists. -/
theorem b64decodeL_encodeL : ∀ l : List Nat, (∀ x ∈ l, x ≤ 255) →
    b64decodeL (b64encodeL l) = l
  | [], _ => by simp [b64encodeL, b64decodeL]
  | [a], h => by
      have ha : a ≤ 255 := h a (by simp)
      rw [b64encodeL_one, b64decodeL_cons4, if_pos rfl]
      rw [charSextet_sextetChar _ (by omega), charSextet_sextetChar _ (by omega)]
      simp only [List.cons.injEq, and_true]
      omega
  | [a, b], h => by
      have ha : a ≤ 255 := h a (by simp)
      have hb : b ≤ 255 := h b (by simp)
      rw [b64encodeL_two, b64decodeL_cons4]
      rw [if_neg (sextetChar_ne_pad _ (by omega)), if_pos rfl]
      rw [charSextet_sextetChar _ (by omega), charSextet_sextetChar _ (by omega),
        charSextet_sextetChar _ (by omega)]
      simp only [List.cons.injEq, and_true]
      exact ⟨by omega, by omega⟩
  | a :: b :: c :: rest, h => by
      have ha : a ≤ 255 := h a (by simp)
      have hb : b ≤ 255 := h b (by simp)
      have hc : c ≤ 255 := h c (by simp)
      have ih := b64decodeL_encodeL rest
        (fun x hx => h x (by simp [hx]))
      simp only [b64encodeL, b64decodeL]
      rw [if_neg (sextetChar_ne_pad _ (by omega)),
        if_neg (sextetChar_ne_pad _ (by omega))]
      rw [charSextet_sextetChar _ (by omega), charSextet_sextetChar _ (by omega),
        charSextet_sextetChar _ (by omega), charSextet_sextetChar _ (by omega)]
      rw [ih]
      simp only [List.cons_append, List.nil_append, List.cons.injEq]
      refine ⟨by omega, by omega, by omega, trivial⟩

/-- Round-trip through the string wrappers used by the script. -/
theorem b64decode_encode (l : List Nat) (h : ∀ x ∈ l, x ≤ 255) :
    b64decode (b64encode l) = l := by
  unfold b64decode b64encode
  exact b64decodeL_encodeL l h

/-! Section: trace-shape lemmas -/

lemma savedPaths_append (s t : List Effect) :
    savedPaths (s ++ t) = savedPaths s ++ savedPaths t := by
  unfold savedPaths
  exact List.filterMap_append s t _

lemma generatedPartsList_append (s t : List Effect) :
    generatedPartsList (s ++ t) = generatedPartsList s ++ generatedPartsList t := by
  unfold generatedPartsList
  exact List.filterMap_append s t _

lemma savedPaths_benign (t : List Effect) (h : ∀ e ∈ t, benign e) :
    savedPaths t = [] := by
  induction t with
  | nil => rfl
  | cons e t ih =>
      have he : benign e = true := h e (List.mem_cons_self e t)
      have ht := ih fun x hx => h x (List.mem_cons_of_mem e hx)
      cases e with
      | print s => simpa [savedPaths, List.filterMap_cons] using ht
      | eprint s => simpa [savedPaths, List.filterMap_cons] using ht
      | mkdir p a b => simpa [savedPaths, List.filterMap_cons] using ht
      | generate m ps r => simp [benign] at he
      | save p i => simp [benign] at he

lemma generatedPartsList_benign (t : List Effect) (h : ∀ e ∈ t, benign e) :
    generatedPartsList t = [] := by
  induction t with
  | nil => rfl
  | cons e t ih =>
      have he : benign e = true := h e (List.mem_cons_self e t)
      have ht := ih fun x hx => h x (List.mem_cons_of_mem e hx)
      cases e with
      | print s => simpa [generatedPartsList, List.filterMap_cons] using ht
      | eprint s => simpa [generatedPartsList, List.filterMap_cons] using ht
      | mkdir p a b => simpa [generatedPartsList, List.filterMap_cons] using ht
      | generate m ps r => simp [benign] at he
      | save p i => simp [benign] at he

lemma hasGenerate_eq_false (t : List Effect) (h : ∀ e ∈ t, benign e) :
    hasGenerate t = false := by
  unfold hasGenerate
  rw [List.any_eq_false]
  intro e he
  have := h e he
  cases e <;> simp_all [benign]

/-! Section: loader lemmas -/

lemma loadRefImages_ok (f : String → Except String PILImage)
    (g : String → PILImage) (rt : String) (ps : List String)
    (hf : ∀ p ∈ ps, f p = Except.ok (g p)) :
    loadRefImages f rt ps = Except.ok (ps.map g,
      ps.map fun p => Effect.print ("Added reference image (" ++ rt ++ "): " ++ p)) := by
  induction ps with
  | nil => rfl
  | cons p ps ih =>
      have hp := hf p (List.mem_cons_self p ps)
      have ihh := ih fun q hq => hf q (List.mem_cons_of_mem p hq)
      simp [loadRefImages, hp, ihh]

lemma loadRefImages_error_first (f : String → Except String PILImage)
    (g : String → PILImage) (rt : String) (ps1 : List String) (p : String)
    (ps2 : List String) (e : String)
    (h1 : ∀ q ∈ ps1, f q = Except.ok (g q)) (hp : f p = Except.error e) :
    loadRefImages f rt (ps1 ++ p :: ps2) = Except.error
      ((ps1.map fun q =>
          Effect.print ("Added reference image (" ++ rt ++ "): " ++ q)) ++
        [Effect.eprint ("Error loading reference image " ++ p ++ ": " ++ e)]) := by
  induction ps1 with
  | nil => simp [loadRefImages, hp]
  | cons q qs ih =>
      have hq := h1 q (List.mem_cons_self q qs)
      have ihh := ih fun x hx => h1 x (List.mem_cons_of_mem q hx)
      simp [loadRefImages, hq, ihh]

lemma loadRefImages_error_benign (f : String → Except String PILImage)
    (rt : String) (ps : List String) (effs : List Effect)
    (h : loadRefImages f rt ps = Except.error effs) : ∀ e ∈ effs, benign e := by
  induction ps generalizing effs with
  | nil => simp [loadRefImages] at h
  | cons p ps ih =>
      unfold loadRefImages at h
      cases hfp : f p with
      | error msg =>
          rw [hfp] at h
          cases h
          intro e he
          simp at he
          subst he
          rfl
      | ok img =>
          rw [hfp] at h
          simp only at h
          cases hrec : loadRefImages f rt ps with
          | error effs2 =>
              rw [hrec] at h
              cases h
              intro e he
              rcases List.mem_cons.mp he with h1 | h2
              · subst h1; rfl
              · exact ih effs2 hrec e h2
          | ok pr =>
              rw [hrec] at h
              cases h

/-! Section: response-processing lemmas -/

lemma processParts_count (args : Args) (d : List Nat → PILImage)
    (r : String → String) (o : String) (parts : List Part) :
    ∀ count, (processParts args d r o parts count).2 = count + imagePartCount parts := by
  induction parts with
  | nil => intro count; simp [processParts, imagePartCount]
  | cons part rest ih =>
      intro count
      cases ht : part.text with
      | some t =>
          simp [processParts, ht, ih, imagePartCount, List.filter_cons]
      | none =>
          cases hd : part.inline_data with
          | none =>
              simp [processParts, ht, hd, ih, imagePartCount, List.filter_cons]
          | some d0 =>
              simp [processParts, ht, hd, ih, imagePartCount, List.filter_cons]
              omega

lemma processParts_noImages (args : Args) (d : List Nat → PILImage)
    (r : String → String) (o : String) (parts : List Part)
    (h : ∀ p ∈ parts, p.inline_data = none) :
    ∀ count, processParts args d r o parts count = (textPrints parts, count) := by
  induction parts with
  | nil => intro count; rfl
  | cons part rest ih =>
      intro count
      have hp : part.inline_data = none := h part (List.mem_cons_self part rest)
      have ihh := ih fun q hq => h q (List.mem_cons_of_mem part hq)
      cases ht : part.text with
      | some t => simp [processParts, ht, ihh, textPrints]
      | none => simp [processParts, ht, hp, ihh, textPrints]

lemma processParts_benign_or_save (args : Args) (d : List Nat → PILImage)
    (r : String → String) (o : String) (parts : List Part) :
    ∀ count e, e ∈ (processParts args d r o parts count).1 →
      benign e = true ∨ ∃ p i, e = Effect.save p i := by
  induction parts with
  | nil => intro count e he; simp [processParts] at he
  | cons part rest ih =>
      intro count e he
      cases ht : part.text with
      | some t =>
          rw [processParts, ht] at he
          simp only at he
          rcases List.mem_cons.mp he with h1 | h2
          · subst h1; left; rfl
          · exact ih count e h2
      | none =>
          cases hd : part.inline_data with
          | none =>
              rw [processParts, ht, hd] at he
              exact ih count e he
          | some d0 =>
              rw [processParts, ht, hd] at he
              simp only at he
              rcases List.mem_cons.mp he with h1 | h2
              · subst h1; right; exact ⟨_, _, rfl⟩
              · rcases List.mem_cons.mp h2 with h3 | h4
                · subst h3; left; rfl
                · exact ih (count + 1) e h4

lemma processParts_generatedPartsList (args : Args) (d : List Nat → PILImage)
    (r : String → String) (o : String) (parts : List Part) (count : Nat) :
    generatedPartsList (processParts args d r o parts count).1 = [] := by
  unfold generatedPartsList
  rw [List.filterMap_eq_nil_iff]
  intro e he
  rcases processParts_benign_or_save args d r o parts count e he with h | ⟨p, i, rfl⟩
  · cases e <;> simp_all [benign]
  · rfl

lemma processParts_savedPaths_nil (args : Args) (d : List Nat → PILImage)
    (r : String → String) (o : String) (parts : List Part)
    (h : imagePartCount parts = 0) (count : Nat) :
    savedPaths (processParts args d r o parts count).1 = [] := by
  induction parts generalizing count with
  | nil => rfl
  | cons part rest ih =>
      cases ht : part.text with
      | some t =>
          have hrest : imagePartCount rest = 0 := by
            unfold imagePartCount at h ⊢
            simpa [List.filter_cons, ht] using h
          rw [processParts, ht]
          simp only
          rw [show (Effect.print ("Model response: " ++ t) ::
            (processParts args d r o rest count).1) =
            [Effect.print ("Model response: " ++ t)] ++
            (processParts args d r o rest count).1 from rfl]
          rw [savedPaths_append, ih hrest count]
          rfl
      | none =>
          cases hd : part.inline_data with
          | none =>
              have hrest : imagePartCount rest = 0 := by
                unfold imagePartCount at h ⊢
                simpa [List.filter_cons, ht, hd] using h
              rw [processParts, ht, hd]
              exact ih hrest count
          | some d0 =>
              exfalso
              unfold imagePartCount at h
              simp [List.filter_cons, ht, hd] at h

/-! Section: symbolic execution of a run whose local loads all succeed -/

lemma strTruthy_none : strTruthy none = false := rfl

lemma strTruthy_empty : strTruthy (some "") = false := rfl

lemma listTruthy_none : listTruthy none = false := rfl

lemma listTruthy_some_nil : listTruthy (some []) = false := rfl

lemma listTruthy_some_cons (q : String) (qs : List String) :
    listTruthy (some (q :: qs)) = true := rfl

lemma strTruthy_some_cases (s : String) :
    strTruthy (some s) = true ∨ (s = "" ∧ strTruthy (some s) = false) := by
  by_cases h : s = ""
  · subst h
    right
    exact ⟨rfl, rfl⟩
  · left
    simp only [strTruthy, Bool.not_eq_true']
    exact Bool.eq_false_iff.mpr fun hh => h ((String.isEmpty_iff s).mp hh)

lemma pyMain_loads_ok (args : Args) (env : Option String)
    (f : String → Except String PILImage) (g : String → PILImage)
    (d : List Nat → PILImage) (r : String → String)
    (c : Except String (List Part))
    (hf : ∀ p, f p = Except.ok (g p))
    (hk : strTruthy (get_api_key args.api_key env) = true) :
    pyMain args env f d r c =
      match c with
      | Except.error e =>
          (1, goodTrace0 args g ++ [Effect.eprint ("Error generating image: " ++ e)])
      | Except.ok parts =>
          if imagePartCount parts = 0 then
            (1, goodTrace0 args g ++ (processParts args d r args.filename parts 0).1 ++
                [Effect.eprint "Error: No image was generated in the response."])
          else
            (0, goodTrace0 args g ++ (processParts args d r args.filename parts 0).1 ++
                [Effect.print ("\nTotal images saved: " ++
                   toString (imagePartCount parts))]) := by
  obtain ⟨prompt, filename, inp, refi, rt, res, n, key⟩ := args
  have hload : ∀ ps, loadRefImages f (refTypeStr rt) ps =
      Except.ok (ps.map g, ps.map fun p =>
        Effect.print ("Added reference image (" ++ refTypeStr rt ++ "): " ++ p)) :=
    fun ps => loadRefImages_ok f g (refTypeStr rt) ps (fun p _ => hf p)
  have hcnt := processParts_count
    ⟨prompt, filename, inp, refi, rt, res, n, key⟩ d r filename
  unfold pyMain
  rw [if_neg (by simp [hk])]
  rcases refi with _ | ⟨_ | ⟨q, qs⟩⟩ <;>
    (rcases inp with _ | s <;>
      try rcases strTruthy_some_cases s with hs | ⟨rfl, hs⟩) <;>
    cases c <;>
    simp [*, goodTrace0, goodParts, refPathList, inputPathList, statusStr,
      strTruthy_none, strTruthy_empty, listTruthy_none, listTruthy_some_nil,
      listTruthy_some_cons, Function.comp_def]

lemma savedPaths_nil : savedPaths [] = [] := rfl

lemma savedPaths_cons_print (m : String) (t : List Effect) :
    savedPaths (Effect.print m :: t) = savedPaths t := rfl

lemma savedPaths_cons_eprint (m : String) (t : List Effect) :
    savedPaths (Effect.eprint m :: t) = savedPaths t := rfl

lemma savedPaths_cons_mkdir (p : String) (a b : Bool) (t : List Effect) :
    savedPaths (Effect.mkdir p a b :: t) = savedPaths t := rfl

lemma savedPaths_cons_generate (m : String) (ps : List PartOut) (res : String)
    (t : List Effect) :
    savedPaths (Effect.generate m ps res :: t) = savedPaths t := rfl

lemma loadRefImages_ok_benign (f : String → Except String PILImage)
    (rt : String) (ps : List String) (imgs : List PILImage) (effs : List Effect)
    (h : loadRefImages f rt ps = Except.ok (imgs, effs)) : ∀ e ∈ effs, benign e := by
  induction ps generalizing imgs effs with
  | nil =>
      unfold loadRefImages at h
      cases h
      intro e he
      simp at he
  | cons p ps ih =>
      unfold loadRefImages at h
      cases hfp : f p with
      | error msg => rw [hfp] at h; cases h
      | ok img =>
          rw [hfp] at h
          simp only at h
          cases hrec : loadRefImages f rt ps with
          | error effs2 => rw [hrec] at h; cases h
          | ok pr =>
              obtain ⟨imgs2, effs2⟩ := pr
              rw [hrec] at h
              cases h
              intro e he
              rcases List.mem_cons.mp he with h1 | h2
              · subst h1; rfl
              · exact ih imgs2 effs2 hrec e h2

lemma imagePartCount_zero (parts : List Part)
    (h : ∀ p ∈ parts, p.inline_data = none) : imagePartCount parts = 0 := by
  unfold imagePartCount
  rw [List.length_eq_zero, List.filter_eq_nil_iff]
  intro p hp
  simp [h p hp]

lemma pyMain_saves_exit (args : Args) (env : Option String)
    (f : String → Except String PILImage) (d : List Nat → PILImage)
    (r : String → String) (c : Except String (List Part)) :
    (pyMain args env f d r c).1 = 0 ∨
    ((pyMain args env f d r c).1 = 1 ∧
      savedPaths (pyMain args env f d r c).2 = []) := by
  unfold pyMain
  by_cases hk : strTruthy (get_api_key args.api_key env) = true
  · rw [if_neg (by simp [hk])]
    dsimp only
    rcases hres : (if listTruthy args.reference_image then
          loadRefImages f (refTypeStr args.reference_type)
            (args.reference_image.getD [])
        else Except.ok ([], [])) with effs | pr
    · simp only [hres]
      right
      refine ⟨by trivial, ?_⟩
      have hb : ∀ e ∈ effs, benign e = true := by
        split at hres
        · exact loadRefImages_error_benign _ _ _ effs hres
        · cases hres
      simp [savedPaths_append, savedPaths_nil, savedPaths_cons_print,
        savedPaths_cons_eprint, savedPaths_cons_mkdir, savedPaths_cons_generate,
        savedPaths_benign effs hb]
    · obtain ⟨refImgs, refEffs⟩ := pr
      have hbr : ∀ e ∈ refEffs, benign e = true := by
        split at hres
        · exact loadRefImages_ok_benign _ _ _ _ _ hres
        · cases hres
          intro e he
          simp at he
      simp only [hres]
      rcases hinp : (if strTruthy args.input_image then
            match f (args.input_image.getD "") with
            | Except.error e =>
                Except.error [Effect.eprint ("Error loading input image: " ++ e)]
            | Except.ok img =>
                Except.ok ([img],
                  [Effect.print ("Added input image for editing: " ++
                     args.input_image.getD "")])
          else Except.ok ([], [])) with effs2 | pr2
      · have hb2 : ∀ e ∈ effs2, benign e = true := by
          split at hinp
          · split at hinp
            · cases hinp
              intro e he
              simp at he
              subst he
              rfl
            · cases hinp
          · cases hinp
        simp only [hinp]
        right
        refine ⟨by trivial, ?_⟩
        simp [savedPaths_append, savedPaths_nil, savedPaths_cons_print,
          savedPaths_cons_eprint, savedPaths_cons_mkdir, savedPaths_cons_generate,
          savedPaths_benign _ hbr, savedPaths_benign _ hb2]
      · obtain ⟨inpImgs, inpEffs⟩ := pr2
        have hb2 : ∀ e ∈ inpEffs, benign e = true := by
          split at hinp
          · split at hinp
            · cases hinp
            · cases hinp
              intro e he
              simp at he
              subst he
              rfl
          · cases hinp
            intro e he
            simp at he
        simp only [hinp]
        rcases c with e | parts
        · dsimp only
          right
          refine ⟨by trivial, ?_⟩
          simp [savedPaths_append, savedPaths_nil, savedPaths_cons_print,
            savedPaths_cons_eprint, savedPaths_cons_mkdir, savedPaths_cons_generate,
            savedPaths_benign _ hbr, savedPaths_benign _ hb2]
        · dsimp only
          by_cases hz : (processParts args d r args.filename parts 0).2 = 0
          · rw [if_pos hz]
            right
            refine ⟨by trivial, ?_⟩
            have hic : imagePartCount parts = 0 := by
              have := processParts_count args d r args.filename parts 0
              omega
            simp [savedPaths_append, savedPaths_nil, savedPaths_cons_print,
              savedPaths_cons_eprint, savedPaths_cons_mkdir, savedPaths_cons_generate,
              savedPaths_benign _ hbr, savedPaths_benign _ hb2,
              processParts_savedPaths_nil args d r args.filename parts hic 0]
          · rw [if_neg hz]
            left
            rfl
  · rw [if_pos (by simp [hk])]
    right
    exact ⟨rfl, rfl⟩

/-! Section: pixel-blend arithmetic -/

lemma blendChannel_mask_zero (c : Nat) : blendChannel 255 c 0 = 255 := by
  unfold blendChannel muldiv255
  omega

lemma blendChannel_mask_full (c : Nat) (h : c ≤ 255) :
    blendChannel 255 c 255 = c := by
  unfold blendChannel muldiv255
  omega

/-! Section: the claims -/

/-- C3: credential resolution prefers the explicit `--api-key` argument over
the `GEMINI_API_KEY` environment variable, and when neither source yields a
value the run exits 1 with the two-option remediation message on standard
error, without any generation call. -/
theorem c3_credential_resolution :
    (∀ (k : String) (env : Option String), k ≠ "" →
       get_api_key (some k) env = some k) ∧
    (∀ env : Option String, get_api_key none env = env) ∧
    (∀ (args : Args) (env : Option String)
       (f : String → Except String PILImage) (d : List Nat → PILImage)
       (r : String → String) (c : Except String (List Part)),
       strTruthy (get_api_key args.api_key env) = false →
       pyMain args env f d r c =
         (1, [Effect.eprint "Error: No API key provided.",
              Effect.eprint "Please either:",
              Effect.eprint "  1. Provide --api-key argument",
              Effect.eprint "  2. Set GEMINI_API_KEY environment variable"]) ∧
       hasGenerate (pyMain args env f d r c).2 = false) := by
  refine ⟨?_, ?_, ?_⟩
  · intro k env hk
    rcases strTruthy_some_cases k with hs | ⟨he, _⟩
    · simp [get_api_key, hs]
    · exact absurd he hk
  · intro env
    rfl
  · intro args env f d r c h
    have hmain : pyMain args env f d r c =
        (1, [Effect.eprint "Error: No API key provided.",
             Effect.eprint "Please either:",
             Effect.eprint "  1. Provide --api-key argument",
             Effect.eprint "  2. Set GEMINI_API_KEY environment variable"]) := by
      unfold pyMain
      rw [if_pos (by simp [h])]
    exact ⟨hmain, by rw [hmain]; rfl⟩

/-- Witness for C3 at concrete inputs. -/
theorem c3_witness :
    get_api_key (some "abc") (some "zzz") = some "abc" ∧
    get_api_key none (some "zzz") = some "zzz" ∧
    pyMain { prompt := "p", filename := "out.png" } none okOpenFix
        (fun _ => rgbFix) id (Except.ok []) =
      (1, [Effect.eprint "Error: No API key provided.",
           Effect.eprint "Please either:",
           Effect.eprint "  1. Provide --api-key argument",
           Effect.eprint "  2. Set GEMINI_API_KEY environment variable"]) :=
  ⟨c3_credential_resolution.1 "abc" (some "zzz") (by decide),
   c3_credential_resolution.2.1 (some "zzz"),
   (c3_credential_resolution.2.2 { prompt := "p", filename := "out.png" }
      none okOpenFix (fun _ => rgbFix) id (Except.ok []) (by decide)).1⟩

/-- C4: with reference images and no input image the submitted prompt is the
fixed per-type phrase followed by the literal user prompt; in every other
run (in particular whenever an input image is present) it is the literal
user prompt unmodified. -/
theorem c4_prompt_determination (args : Args) :
    (listTruthy args.reference_image = true → strTruthy args.input_image = false →
       buildPrompt args = refPhrase args.reference_type ++ args.prompt) ∧
    (strTruthy args.input_image = true → buildPrompt args = args.prompt) ∧
    (listTruthy args.reference_image = false → buildPrompt args = args.prompt) := by
  refine ⟨?_, ?_, ?_⟩
  · intro h1 h2
    simp [buildPrompt, h1, h2]
  · intro h
    simp [buildPrompt, h]
  · intro h
    simp [buildPrompt, h]

/-- Witness for C4 at concrete inputs. -/
theorem c4_witness :
    buildPrompt { prompt := "cat", filename := "f.png", reference_image := some ["r.png"] } = refPhrase RefType.STYLE ++ "cat" ∧
    buildPrompt { prompt := "cat", filename := "f.png", reference_image := some ["r.png"], input_image := some "i.png" } = "cat" :=
  ⟨(c4_prompt_determination _).1 (by decide) (by decide),
   (c4_prompt_determination _).2.1 (by decide)⟩

/-- C8: every decoded image is color-mode-normalized before the PNG write:
RGBA is flattened onto a white background with its alpha channel as the
paste mask (fully transparent pixels become white, fully opaque pixels keep
their color), RGB is saved unchanged, and any other mode goes through
`convert('RGB')`; the written image is always RGB. -/
theorem c8_color_normalization (img : PILImage) :
    (img.mode = "RGBA" →
       normalizeImage img = flattenImage img ∧
       (∀ r g b, flattenPixel [r, g, b, 0] = [255, 255, 255]) ∧
       (∀ r g b, r ≤ 255 → g ≤ 255 → b ≤ 255 →
          flattenPixel [r, g, b, 255] = [r, g, b])) ∧
    (img.mode = "RGB" → normalizeImage img = img) ∧
    (img.mode ≠ "RGBA" → img.mode ≠ "RGB" →
       normalizeImage img = convertRGB img) ∧
    (normalizeImage img).mode = "RGB" := by
  refine ⟨?_, ?_, ?_, ?_⟩
  · intro h
    refine ⟨by unfold normalizeImage flattenImage; rw [if_pos h], ?_, ?_⟩
    · intro r g b
      simp [flattenPixel, blendChannel_mask_zero]
    · intro r g b hr hg hb
      simp [flattenPixel, blendChannel_mask_full r hr,
        blendChannel_mask_full g hg, blendChannel_mask_full b hb]
  · intro h
    unfold normalizeImage
    rw [if_neg (by simp [h]), if_pos h]
  · intro h1 h2
    unfold normalizeImage
    rw [if_neg h1, if_neg h2]
  · by_cases h1 : img.mode = "RGBA"
    · unfold normalizeImage
      rw [if_pos h1]
    · by_cases h2 : img.mode = "RGB"
      · unfold normalizeImage
        rw [if_neg h1, if_pos h2]
        exact h2
      · unfold normalizeImage
        rw [if_neg h1, if_neg h2]
        rfl

/-- Witness for C8 at a concrete RGBA image. -/
theorem c8_witness :
    normalizeImage rgbaFix = { mode := "RGB", width := 2, height := 1, pixels := [[255, 255, 255], [10, 20, 30]] } ∧
    flattenPixel [1, 2, 3, 0] = [255, 255, 255] := by
  have h := (c8_color_normalization rgbaFix).1 rfl
  exact ⟨h.1.trans (by decide), h.2.1 1 2 3⟩

/-- C9: a base64-encoded string payload and a raw-bytes payload carrying
the same bytes normalize to the same raw byte sequence (the string is
base64-decoded, the bytes pass through), so both representations yield
identical saved results. -/
theorem c9_payload_normalization (b : List Nat) (h : ∀ x ∈ b, x ≤ 255)
    (d : List Nat → PILImage) :
    normalizePayload (PayloadData.str (b64encode b)) =
      normalizePayload (PayloadData.bytes b) ∧
    normalizeImage (d (normalizePayload (PayloadData.str (b64encode b)))) =
      normalizeImage (d (normalizePayload (PayloadData.bytes b))) := by
  have h1 : normalizePayload (PayloadData.str (b64encode b)) =
      normalizePayload (PayloadData.bytes b) := by
    simpa [normalizePayload] using b64decode_encode b h
  exact ⟨h1, by rw [h1]⟩

/-- Witness for C9 at the bytes of `"Man"`. -/
theorem c9_witness :
    normalizePayload (PayloadData.str (b64encode [77, 97, 110])) =
      normalizePayload (PayloadData.bytes [77, 97, 110]) :=
  (c9_payload_normalization [77, 97, 110] (by decide) (fun _ => rgbFix)).1

/-- C10: every run that passes credential resolution creates the output
path's parent directories (`parents=True, exist_ok=True`) as its very first
observable effect — before any local image is loaded and before the
generation call, hence also on runs that later fail with exit status 1. -/
theorem c10_mkdir_first (args : Args) (env : Option String)
    (f : String → Except String PILImage) (d : List Nat → PILImage)
    (r : String → String) (c : Except String (List Part))
    (hk : strTruthy (get_api_key args.api_key env) = true) :
    (pyMain args env f d r c).2.head? =
      some (Effect.mkdir (pathParent args.filename) true true) := by
  unfold pyMain
  rw [if_neg (by simp [hk])]
  dsimp only
  split
  · rfl
  · split
    · rfl
    · split
      · rfl
      · split
        · rfl
        · rfl

/-- Witness for C10: a keyed run that fails later (empty response, exit 1)
still begins with the directory creation. -/
theorem c10_witness :
    (pyMain (outArgs 1) none okOpenFix (fun _ => rgbFix) id
        (Except.ok [])).2.head? =
      some (Effect.mkdir (pathParent "out.png") true true) :=
  c10_mkdir_first (outArgs 1) none okOpenFix (fun _ => rgbFix) id
    (Except.ok []) (by decide)

/-- C1 counterexample: with the default `--num-images 1` (its value is not
"regardless"), a response of three inline images writes `out.png` three
times over — not `out.png`, `out-2.png`, `out-3.png`. -/
theorem c1_counterexample :
    savedPaths (threeImageRun 1).2 = ["out.png", "out.png", "out.png"] ∧
    savedPaths (threeImageRun 1).2 ≠ ["out.png", "out-2.png", "out-3.png"] := by
  refine ⟨by decide, by decide⟩

/-- C1 amended: for a three-inline-image response and `--filename out.png`,
the files written are `out.png`, `out-2.png`, `out-3.png` exactly when
`--num-images` exceeds 1; when `--num-images ≤ 1` every image is written to
`out.png` itself (each later write overwriting the previous one). -/
theorem c1_amended_suffix (n : Int) :
    (1 < n → savedPaths (threeImageRun n).2 = ["out.png", "out-2.png", "out-3.png"]) ∧
    (n ≤ 1 → savedPaths (threeImageRun n).2 = ["out.png", "out.png", "out.png"]) := by
  have key : savedPaths (threeImageRun n).2 =
      [savePathFor (outArgs n) "out.png" 0, savePathFor (outArgs n) "out.png" 1,
       savePathFor (outArgs n) "out.png" 2] := by
    have hrun := pyMain_loads_ok (outArgs n) none okOpenFix (fun _ => rgbFix)
      (fun _ => rgbFix) id (Except.ok [imgPartFix, imgPartFix, imgPartFix])
      (fun p => rfl) rfl
    unfold threeImageRun
    rw [hrun]
    rfl
  have s0 : savePathFor (outArgs n) "out.png" 0 = "out.png" := by
    unfold savePathFor
    rw [if_neg (by simp)]
  constructor
  · intro h
    have s1 : savePathFor (outArgs n) "out.png" 1 = "out-2.png" := by
      unfold savePathFor
      rw [if_pos ⟨h, by norm_num⟩]
      decide
    have s2 : savePathFor (outArgs n) "out.png" 2 = "out-3.png" := by
      unfold savePathFor
      rw [if_pos ⟨h, by norm_num⟩]
      decide
    rw [key, s0, s1, s2]
  · intro h
    have hnot : ¬ (1 : Int) < n := by omega
    have s1 : savePathFor (outArgs n) "out.png" 1 = "out.png" := by
      unfold savePathFor
      rw [if_neg fun hc => hnot hc.1]
    have s2 : savePathFor (outArgs n) "out.png" 2 = "out.png" := by
      unfold savePathFor
      rw [if_neg fun hc => hnot hc.1]
    rw [key, s0, s1, s2]

/-- Witness for the amended C1 at `--num-images 3` and `--num-images 1`. -/
theorem c1_amended_suffix_witness :
    savedPaths (threeImageRun 3).2 = ["out.png", "out-2.png", "out-3.png"] ∧
    savedPaths (threeImageRun 1).2 = ["out.png", "out.png", "out.png"] :=
  ⟨(c1_amended_suffix 3).1 (by decide), (c1_amended_suffix 1).2 (by decide)⟩

/-- C2 counterexample: `--num-images 5` is outside 1–4 yet is not rejected
by any validation — the run proceeds to the generation call and exits 0. -/
theorem c2_counterexample :
    (pyMain (outArgs 5) none okOpenFix (fun _ => rgbFix) id
       (Except.ok [imgPartFix])).1 = 0 ∧
    hasGenerate (pyMain (outArgs 5) none okOpenFix (fun _ => rgbFix) id
       (Except.ok [imgPartFix])).2 = true := by
  refine ⟨by decide, by decide⟩

/-- C2 amended: `--num-images` is parsed as a plain integer with no range
validation at all (1–4 appears only in the help text): every integer value,
inside or outside 1–4, is accepted and the run proceeds to the generation
call. -/
theorem c2_amended_accepts_any_int (n : Int) (args : Args) (env : Option String)
    (f : String → Except String PILImage) (d : List Nat → PILImage)
    (r : String → String) (c : Except String (List Part))
    (hk : strTruthy (get_api_key args.api_key env) = true)
    (h1 : args.reference_image = none) (h2 : args.input_image = none) :
    hasGenerate (pyMain { args with num_images := n } env f d r c).2 = true := by
  unfold pyMain
  rw [if_neg (by simp [hk])]
  dsimp only
  simp only [h1, h2, listTruthy_none, strTruthy_none, Bool.false_eq_true,
    if_false]
  rcases c with e | parts
  · simp [hasGenerate]
  · dsimp only
    split <;> simp [hasGenerate]

/-- Witness for the amended C2 at the out-of-range value `-7`. -/
theorem c2_amended_accepts_any_int_witness :
    hasGenerate (pyMain { outArgs 0 with num_images := -7 } none okOpenFix
       (fun _ => rgbFix) id (Except.ok [])).2 = true :=
  c2_amended_accepts_any_int (-7) (outArgs 0) none okOpenFix (fun _ => rgbFix)
    id (Except.ok []) rfl rfl rfl

lemma generatedPartsList_nil : generatedPartsList [] = [] := rfl

lemma generatedPartsList_cons_print (m : String) (t : List Effect) :
    generatedPartsList (Effect.print m :: t) = generatedPartsList t := rfl

lemma generatedPartsList_cons_eprint (m : String) (t : List Effect) :
    generatedPartsList (Effect.eprint m :: t) = generatedPartsList t := rfl

lemma generatedPartsList_cons_mkdir (p : String) (a b : Bool) (t : List Effect) :
    generatedPartsList (Effect.mkdir p a b :: t) = generatedPartsList t := rfl

lemma generatedPartsList_cons_save (p : String) (i : PILImage) (t : List Effect) :
    generatedPartsList (Effect.save p i :: t) = generatedPartsList t := rfl

lemma generatedPartsList_cons_generate (m : String) (ps : List PartOut)
    (res : String) (t : List Effect) :
    generatedPartsList (Effect.generate m ps res :: t) =
      ps :: generatedPartsList t := rfl

lemma generatedPartsList_map_print (h : String → String) (l : List String) :
    generatedPartsList (l.map fun p => Effect.print (h p)) = [] := by
  apply generatedPartsList_benign
  intro e he
  rcases List.mem_map.mp he with ⟨p, _, hp⟩
  subst hp
  rfl

lemma generatedPartsList_goodTrace0 (args : Args) (g : String → PILImage) :
    generatedPartsList (goodTrace0 args g) = [goodParts args g] := by
  unfold goodTrace0
  rw [generatedPartsList_append, generatedPartsList_append,
    generatedPartsList_append, generatedPartsList_map_print,
    generatedPartsList_map_print]
  rfl

/-- C5: for every run that reaches the generation call, the submitted
content parts are the reference images in command-line order, then the
optional input image, then the text prompt; the text prompt is always the
last content part. -/
theorem c5_parts_order (args : Args) (env : Option String)
    (f : String → Except String PILImage) (g : String → PILImage)
    (d : List Nat → PILImage) (r : String → String)
    (c : Except String (List Part))
    (hf : ∀ p, f p = Except.ok (g p))
    (hk : strTruthy (get_api_key args.api_key env) = true) :
    generatedPartsList (pyMain args env f d r c).2 =
      [((refPathList args).map fun p => PartOut.image (g p)) ++
       ((inputPathList args).map fun p => PartOut.image (g p)) ++
       [PartOut.text (buildPrompt args)]] ∧
    ∀ ps ∈ generatedPartsList (pyMain args env f d r c).2,
      ps.getLast? = some (PartOut.text (buildPrompt args)) := by
  have hmain : generatedPartsList (pyMain args env f d r c).2 =
      [goodParts args g] := by
    rw [pyMain_loads_ok args env f g d r c hf hk]
    rcases c with e | parts
    · dsimp only
      rw [generatedPartsList_append, generatedPartsList_goodTrace0]
      rfl
    · dsimp only
      by_cases hz : imagePartCount parts = 0
      · rw [if_pos hz]
        dsimp only
        rw [generatedPartsList_append, generatedPartsList_append,
          generatedPartsList_goodTrace0,
          processParts_generatedPartsList args d r args.filename parts 0]
        rfl
      · rw [if_neg hz]
        dsimp only
        rw [generatedPartsList_append, generatedPartsList_append,
          generatedPartsList_goodTrace0,
          processParts_generatedPartsList args d r args.filename parts 0]
        rfl
  refine ⟨by rw [hmain]; rfl, ?_⟩
  intro ps hps
  rw [hmain] at hps
  rcases List.mem_singleton.mp hps with rfl | _
  unfold goodParts
  exact List.getLast?_concat _

/-- Witness for C5: two reference images plus an input image. -/
theorem c5_witness :
    generatedPartsList (pyMain c5ArgsFix none okOpenFix (fun _ => rgbFix) id
        (Except.ok [])).2 =
      [((refPathList c5ArgsFix).map fun _ => PartOut.image rgbFix) ++
       ((inputPathList c5ArgsFix).map fun _ => PartOut.image rgbFix) ++
       [PartOut.text (buildPrompt c5ArgsFix)]] :=
  (c5_parts_order c5ArgsFix none okOpenFix (fun _ => rgbFix) (fun _ => rgbFix)
    id (Except.ok []) (fun _ => rfl) rfl).1

lemma hasGenerate_mkdir_prints_eprint (pp : String) (a b : Bool)
    (h : String → String) (l : List String) (m : String) :
    hasGenerate (Effect.mkdir pp a b ::
      ((l.map fun q => Effect.print (h q)) ++ [Effect.eprint m])) = false := by
  apply hasGenerate_eq_false
  intro x hx
  rcases List.mem_cons.mp hx with h1 | h1
  · subst h1
    rfl
  · rcases List.mem_append.mp h1 with h2 | h2
    · rcases List.mem_map.mp h2 with ⟨q, _, hq⟩
      subst hq
      rfl
    · rcases List.mem_singleton.mp h2 with rfl | _
      rfl

/-- C6: when a reference-image or input-image path fails to load, the run
prints the loader prints made so far followed by a fatal message naming the
failure, and exits 1 before any generation call (no generation effect in
the trace, no partial submission). -/
theorem c6_load_failure_aborts :
    (∀ (args : Args) (env : Option String)
       (f : String → Except String PILImage) (g : String → PILImage)
       (d : List Nat → PILImage) (r : String → String)
       (c : Except String (List Part)) (ps1 : List String) (p : String)
       (ps2 : List String) (e : String),
       strTruthy (get_api_key args.api_key env) = true →
       args.reference_image = some (ps1 ++ p :: ps2) →
       (∀ q ∈ ps1, f q = Except.ok (g q)) →
       f p = Except.error e →
       pyMain args env f d r c =
         (1, Effect.mkdir (pathParent args.filename) true true ::
             ((ps1.map fun q => Effect.print ("Added reference image (" ++
                 refTypeStr args.reference_type ++ "): " ++ q)) ++
              [Effect.eprint ("Error loading reference image " ++ p ++ ": " ++ e)])) ∧
       hasGenerate (pyMain args env f d r c).2 = false) ∧
    (∀ (args : Args) (env : Option String)
       (f : String → Except String PILImage) (g : String → PILImage)
       (d : List Nat → PILImage) (r : String → String)
       (c : Except String (List Part)) (s : String) (e : String),
       strTruthy (get_api_key args.api_key env) = true →
       args.input_image = some s → s ≠ "" →
       (∀ q ∈ refPathList args, f q = Except.ok (g q)) →
       f s = Except.error e →
       pyMain args env f d r c =
         (1, Effect.mkdir (pathParent args.filename) true true ::
             (((refPathList args).map fun q => Effect.print ("Added reference image (" ++
                 refTypeStr args.reference_type ++ "): " ++ q)) ++
              [Effect.eprint ("Error loading input image: " ++ e)])) ∧
       hasGenerate (pyMain args env f d r c).2 = false) := by
  constructor
  · intro args env f g d r c ps1 p ps2 e hk hri h1 hp
    have hne : listTruthy (some (ps1 ++ p :: ps2)) = true := by
      cases ps1 <;> rfl
    have hmain : pyMain args env f d r c =
        (1, Effect.mkdir (pathParent args.filename) true true ::
            ((ps1.map fun q => Effect.print ("Added reference image (" ++
                refTypeStr args.reference_type ++ "): " ++ q)) ++
             [Effect.eprint ("Error loading reference image " ++ p ++ ": " ++ e)])) := by
      unfold pyMain
      rw [if_neg (by simp [hk])]
      dsimp only
      simp only [hri, hne, if_true, Option.getD_some]
      rw [loadRefImages_error_first f g (refTypeStr args.reference_type)
        ps1 p ps2 e h1 hp]
      rfl
    refine ⟨hmain, ?_⟩
    rw [hmain]
    exact hasGenerate_mkdir_prints_eprint _ _ _ _ ps1 _
  · intro args env f g d r c s e hk hii hs h1 hp
    have hst : strTruthy (some s) = true := by
      rcases strTruthy_some_cases s with h | ⟨he, _⟩
      · exact h
      · exact absurd he hs
    have hmain : pyMain args env f d r c =
        (1, Effect.mkdir (pathParent args.filename) true true ::
            (((refPathList args).map fun q => Effect.print ("Added reference image (" ++
                refTypeStr args.reference_type ++ "): " ++ q)) ++
             [Effect.eprint ("Error loading input image: " ++ e)])) := by
      unfold pyMain
      rw [if_neg (by simp [hk])]
      dsimp only
      rcases hri : args.reference_image with _ | l
      · have hrp : refPathList args = [] := by
          unfold refPathList
          rw [hri]
          rfl
        simp only [hri, listTruthy_none, Bool.false_eq_true, if_false, hii,
          hst, if_true, Option.getD_some, hp]
        rw [hrp]
        rfl
      · rcases l with _ | ⟨q, qs⟩
        · have hrp : refPathList args = [] := by
            unfold refPathList
            rw [hri]
            rfl
          simp only [hri, listTruthy_some_nil, Bool.false_eq_true, if_false,
            hii, hst, if_true, Option.getD_some, hp]
          rw [hrp]
          rfl
        · have hrp : refPathList args = q :: qs := by
            unfold refPathList
            rw [hri]
            rfl
          have h1q : ∀ x ∈ q :: qs, f x = Except.ok (g x) := by
            rw [hrp] at h1
            exact h1
          simp only [hri, listTruthy_some_cons, if_true, Option.getD_some,
            hii, hst, hp]
          rw [loadRefImages_ok f g (refTypeStr args.reference_type)
            (q :: qs) h1q]
          rw [hrp]
          rfl
    refine ⟨hmain, ?_⟩
    rw [hmain]
    exact hasGenerate_mkdir_prints_eprint _ _ _ _ (refPathList args) _

/-- Witness for C6: one bad reference path, and one bad input path. -/
theorem c6_witness :
    pyMain c6RefArgsFix none failOpenFix (fun _ => rgbFix) id (Except.ok []) =
      (1, Effect.mkdir (pathParent "out.png") true true ::
          (([] : List String).map (fun q => Effect.print ("Added reference image (" ++
              refTypeStr RefType.STYLE ++ "): " ++ q)) ++
           [Effect.eprint ("Error loading reference image bad.png: " ++
              "cannot identify image file 'bad.png'")])) ∧
    pyMain c6InpArgsFix none failOpenFix (fun _ => rgbFix) id (Except.ok []) =
      (1, Effect.mkdir (pathParent "out.png") true true ::
          ((refPathList c6InpArgsFix).map (fun q => Effect.print ("Added reference image (" ++
              refTypeStr RefType.STYLE ++ "): " ++ q)) ++
           [Effect.eprint ("Error loading input image: " ++
              "cannot identify image file 'bad.png'")])) :=
  ⟨(c6_load_failure_aborts.1 c6RefArgsFix none failOpenFix (fun _ => rgbFix)
      (fun _ => rgbFix) id (Except.ok []) [] "bad.png" []
      "cannot identify image file 'bad.png'" rfl rfl
      (by intro q hq; simp at hq) rfl).1,
   (c6_load_failure_aborts.2 c6InpArgsFix none failOpenFix (fun _ => rgbFix)
      (fun _ => rgbFix) id (Except.ok []) "bad.png"
      "cannot identify image file 'bad.png'" rfl rfl (by decide)
      (by intro q hq; simp [refPathList, c6InpArgsFix, listTruthy_none] at hq) rfl).1⟩

/-- C7: a response whose parts carry no inline image makes the run print
the text parts and then exit 1 with the no-image error; conversely, any
run that saved at least one image exits 0. -/
theorem c7_exit_codes :
    (∀ (args : Args) (env : Option String)
       (f : String → Except String PILImage) (g : String → PILImage)
       (d : List Nat → PILImage) (r : String → String) (parts : List Part),
       (∀ p, f p = Except.ok (g p)) →
       strTruthy (get_api_key args.api_key env) = true →
       (∀ p ∈ parts, p.inline_data = none) →
       pyMain args env f d r (Except.ok parts) =
         (1, goodTrace0 args g ++ textPrints parts ++
             [Effect.eprint "Error: No image was generated in the response."])) ∧
    (∀ (args : Args) (env : Option String)
       (f : String → Except String PILImage) (d : List Nat → PILImage)
       (r : String → String) (c : Except String (List Part)),
       savedPaths (pyMain args env f d r c).2 ≠ [] →
       (pyMain args env f d r c).1 = 0) := by
  constructor
  · intro args env f g d r parts hf hk hparts
    rw [pyMain_loads_ok args env f g d r (Except.ok parts) hf hk]
    have hz : imagePartCount parts = 0 := imagePartCount_zero parts hparts
    dsimp only
    rw [if_pos hz, processParts_noImages args d r args.filename parts hparts 0]
  · intro args env f d r c h
    rcases pyMain_saves_exit args env f d r c with h0 | ⟨_, hnil⟩
    · exact h0
    · exact absurd hnil h

/-- Witness for C7: a text-only response exits 1; a run that saved an image
exits 0. -/
theorem c7_witness :
    pyMain (outArgs 1) none okOpenFix (fun _ => rgbFix) id
        (Except.ok [textPartFix]) =
      (1, goodTrace0 (outArgs 1) (fun _ => rgbFix) ++ textPrints [textPartFix] ++
          [Effect.eprint "Error: No image was generated in the response."]) ∧
    (pyMain (outArgs 1) none okOpenFix (fun _ => rgbFix) id
        (Except.ok [imgPartFix])).1 = 0 :=
  ⟨c7_exit_codes.1 (outArgs 1) none okOpenFix (fun _ => rgbFix)
     (fun _ => rgbFix) id [textPartFix] (fun p => rfl) rfl (by decide),
   c7_exit_codes.2 (outArgs 1) none okOpenFix (fun _ => rgbFix) id
     (Except.ok [imgPartFix]) (by decide)⟩

end GenImage
